import Mathlib

/-!
# Verification of the wdd block-copy engine

Shallow embedding of the core of `wdd` (a `dd`-style raw copier for Windows),
from `src/wdd.c` and the later revision embedded in `src/unnamed/part_000`
(README + CMakeLists + `wdd.c` of v0.2.0).  The two revisions agree on every
construct modelled here (constants, buffer-size derivation, the device
dismount/lock sequence, the copy loop, `cleanup`, `exit_on_error`,
`format_size`); where they differ in a detail (the later revision declares
`buffer_size` as `DWORD` and guards `CloseHandle` on handle validity) the
later revision is followed and the difference is noted at the definition.

Machine integers (`size_t`, `DWORD`, `ULONGLONG`) are modelled as `Nat`;
the quantities involved (byte counts, sector sizes) never overflow their C
types on the traced paths except where noted (`fileBufferSize` keeps the
explicit `% 2^32` truncation of the `(DWORD)options.block_size` cast).
Windows API calls (`ReadFile`, `WriteFile`, `DeviceIoControl`, `CreateFileA`,
`VirtualAlloc`) are modelled as oracle inputs: each call site consumes the
outcome the environment would have produced there, and the control flow of
the C source is reproduced on those outcomes.
-/

namespace Wdd

/-- Constant `KB`, `1 << 10` in the source. -/
def KB : Nat := 2 ^ 10

/-- Constant `MB`, `1 << 20` in the source. -/
def MB : Nat := 2 ^ 20

/-- Constant `GB`, `1 << 30` in the source. -/
def GB : Nat := 2 ^ 30

/-- Constant `BUFFER_SIZE` (the default transfer buffer size). -/
def BUFFER_SIZE : Nat := 4096

/-- Constant `UPDATE_INTERVAL` (microseconds between progress redraws). -/
def UPDATE_INTERVAL : Nat := 1000000

/-- Windows error code `ERROR_SECTOR_NOT_FOUND` (winerror.h, value 27),
compared against `GetLastError()` after a failed `ReadFile`. -/
def ERROR_SECTOR_NOT_FOUND : Nat := 27

/-- C constant `EXIT_SUCCESS`. -/
def EXIT_SUCCESS : Nat := 0

/-- C constant `EXIT_FAILURE`. -/
def EXIT_FAILURE : Nat := 1

/-! ## Buffer-size derivation (Device Negotiator)

Source, device branch (`main`, part_000 lines 433-438 / wdd.c lines 348-353):

    sector_size = disk_geometry.Geometry.BytesPerSector;
    if (options.block_size < sector_size) {
        s.buffer_size = sector_size;
    } else {
        s.buffer_size = (s.buffer_size / sector_size) * sector_size;
    }

where `s.buffer_size` still holds the `BUFFER_SIZE` default (4096) assigned
just before the geometry query: the else branch rounds the DEFAULT, not the
requested block size. -/

/-- Effective buffer size when the destination is classified as a device,
given the requested block size and the discovered sector size.  Direct
transcription of the device branch above: `s.buffer_size` equals
`BUFFER_SIZE` when that branch runs. -/
def deriveBufferSize (block_size sector_size : Nat) : Nat :=
  if block_size < sector_size then sector_size
  else (BUFFER_SIZE / sector_size) * sector_size

/-- Effective buffer size when the destination is a regular file
(`main`, part_000 lines 439-443): the requested block size verbatim when
positive, else the default.  The later revision casts the `size_t` request
to `DWORD`, hence the `% 2^32`. -/
def fileBufferSize (block_size : Nat) : Nat :=
  if 0 < block_size then block_size % 2 ^ 32 else BUFFER_SIZE

/-- Modelled from the spec's words, for comparison with `deriveBufferSize`
(claim C3): start from the default 4096 or the user-requested block size,
then round so the result is an integer multiple of the sector size, rounding
a too-small requested size up to one full sector. -/
def specBufferSize (block_size sector_size : Nat) : Nat :=
  let start := if block_size = 0 then BUFFER_SIZE else block_size
  if start < sector_size then sector_size
  else (start / sector_size) * sector_size

/-! ## Byte-size formatter

Source `format_size` (part_000 lines 130-140 / wdd.c lines 64-74):

    if (size >= GB)      snprintf(buffer, n, "%0.1f GB", (double)size / (double)GB);
    else if (size >= MB) snprintf(buffer, n, "%0.1f MB", (double)size / (double)MB);
    else if (size >= KB) snprintf(buffer, n, "%0.1f KB", (double)size / (double)KB);
    else                 snprintf(buffer, n, "%zu bytes", size);

The threshold comparisons are integer comparisons.  The `%0.1f` rendering of
the quotient is modelled as round-half-to-even of the exact rational
`10 * size / threshold`: for `size < 2^53` the `double` conversion and the
division by a power of two are exact, and printf rounds the decimal string
half-to-even, so the model coincides with the C output there. -/

/-- Unit and scaled magnitude produced by `format_size`: either an exact
integer byte count, or a value in tenths under a KB/MB/GB unit. -/
inductive FormattedSize where
  | bytes (n : Nat)
  | kb (tenths : Nat)
  | mb (tenths : Nat)
  | gb (tenths : Nat)
deriving DecidableEq, Repr

/-- Round-half-to-even of the rational `10 * n / d`, modelling the one
decimal place printed by `%0.1f`. -/
def roundTenths (n d : Nat) : Nat :=
  let a := 10 * n
  let q := a / d
  let r := a % d
  if 2 * r < d then q
  else if d < 2 * r then q + 1
  else if q % 2 = 0 then q else q + 1

/-- Model of `format_size`: unit selection and scaled magnitude. -/
def format_size (size : Nat) : FormattedSize :=
  if GB ≤ size then .gb (roundTenths size GB)
  else if MB ≤ size then .mb (roundTenths size MB)
  else if KB ≤ size then .kb (roundTenths size KB)
  else .bytes size

/-! ## Claim C1 -/

/-- Claim C1, counterexample.  The claim states the derived effective buffer
size is a positive multiple of the sector size for EVERY requested block
size, including sector sizes larger than the 4096-byte default.  With sector
size 8192 and requested block size 8192 the else branch computes
`(4096 / 8192) * 8192 = 0`: the derived size is zero, not positive and not a
multiple of 8192 in the claimed positive sense. -/
theorem sector8192_buffer_zero : deriveBufferSize 8192 8192 = 0 := by decide

/-- Claim C1, amended: when the destination is a device with sector size
`S > 0`, the derived effective buffer size is a positive multiple of `S`, at
least `S`, PROVIDED `S` does not exceed the 4096-byte default or the
requested block size is below `S`; in the remaining case (`S > 4096` and
request at least `S`) the derivation yields zero, as the counterexample
shows. -/
theorem buffer_multiple_of_sector (bs S : Nat) (hS : 0 < S)
    (h : S ≤ BUFFER_SIZE ∨ bs < S) :
    0 < deriveBufferSize bs S ∧ S ∣ deriveBufferSize bs S ∧
      S ≤ deriveBufferSize bs S := by
  unfold deriveBufferSize
  by_cases hlt : bs < S
  · simp only [hlt, if_true]
    exact ⟨hS, dvd_refl S, le_refl S⟩
  · simp only [hlt, if_false]
    have hSB : S ≤ BUFFER_SIZE := h.resolve_right hlt
    have hq : 0 < BUFFER_SIZE / S := Nat.div_pos hSB hS
    refine ⟨Nat.mul_pos hq hS, dvd_mul_left S (BUFFER_SIZE / S), ?_⟩
    calc S = 1 * S := (Nat.one_mul S).symm
    _ ≤ (BUFFER_SIZE / S) * S := Nat.mul_le_mul_right S hq

/-- Witness for `buffer_multiple_of_sector` at requested size 512 and sector
size 512. -/
theorem buffer_multiple_of_sector_witness :
    0 < deriveBufferSize 512 512 ∧ 512 ∣ deriveBufferSize 512 512 ∧
      512 ≤ deriveBufferSize 512 512 :=
  buffer_multiple_of_sector 512 512 (by decide) (Or.inl (by decide))

/-! ## Claim C3 -/

/-- Claim C3, counterexample.  The claim states that a requested block size
of at least one sector determines the result (start from the requested size,
round to a sector multiple) rather than being ignored.  With sector size 512
and requested size 8192 the code yields 4096 — the rounded DEFAULT — while
the spec formula yields 8192, and the code result coincides with the result
for an entirely different request (1024): the requested size is ignored. -/
theorem requested_block_size_ignored :
    deriveBufferSize 8192 512 = 4096 ∧ specBufferSize 8192 512 = 8192 ∧
      deriveBufferSize 8192 512 ≠ specBufferSize 8192 512 ∧
      deriveBufferSize 8192 512 = deriveBufferSize 1024 512 := by decide

/-- Claim C3, amended: when the destination is a device with sector size
`S > 0`, a requested size below `S` yields exactly one sector, and a
requested size of at least `S` yields the greatest multiple of `S` not
exceeding the 4096-byte default, independent of the requested size (the
request is ignored on that branch). -/
theorem device_buffer_from_default (bs S : Nat) (hS : 0 < S) :
    (bs < S → deriveBufferSize bs S = S) ∧
    (S ≤ bs →
      S ∣ deriveBufferSize bs S ∧ deriveBufferSize bs S ≤ BUFFER_SIZE ∧
        BUFFER_SIZE < deriveBufferSize bs S + S ∧
        ∀ bs2, S ≤ bs2 → deriveBufferSize bs2 S = deriveBufferSize bs S) := by
  constructor
  · intro hlt
    unfold deriveBufferSize
    simp only [hlt, if_true]
  · intro hge
    have hnlt : ¬ bs < S := Nat.not_lt.mpr hge
    unfold deriveBufferSize
    simp only [hnlt, if_false]
    refine ⟨dvd_mul_left S (BUFFER_SIZE / S), Nat.div_mul_le_self _ _, ?_, ?_⟩
    · exact Nat.lt_div_mul_add hS
    · intro bs2 hge2
      simp only [Nat.not_lt.mpr hge2, if_false]

/-- Witness for `device_buffer_from_default` at sector size 512 applied to
requested sizes 100 (below one sector) and 8192 (above). -/
theorem device_buffer_from_default_witness :
    deriveBufferSize 100 512 = 512 ∧ deriveBufferSize 8192 512 ≤ BUFFER_SIZE :=
  ⟨(device_buffer_from_default 100 512 (by decide)).1 (by decide),
   ((device_buffer_from_default 8192 512 (by decide)).2 (by decide)).2.1⟩

/-! ## Claim C8 -/

/-- Claim C8: `format_size` renders a count below 1024 as the exact integer
with unit bytes; from 2^10 up to 2^20 it renders the count scaled by 2^10 to
one decimal place with unit KB, similarly MB from 2^20 and GB from 2^30; at
the exact thresholds 1024, 2^20 and 2^30 the rendered magnitude is 1.0 (ten
tenths) with the advancing unit. -/
theorem format_size_thresholds (n : Nat) :
    (n < 1024 → format_size n = .bytes n) ∧
    (1024 ≤ n → n < 2 ^ 20 → format_size n = .kb (roundTenths n KB)) ∧
    (2 ^ 20 ≤ n → n < 2 ^ 30 → format_size n = .mb (roundTenths n MB)) ∧
    (2 ^ 30 ≤ n → format_size n = .gb (roundTenths n GB)) ∧
    format_size 1024 = .kb 10 ∧
    format_size (2 ^ 20) = .mb 10 ∧
    format_size (2 ^ 30) = .gb 10 := by
  refine ⟨?_, ?_, ?_, ?_, by decide, by decide, by decide⟩
  · intro h
    unfold format_size
    have h1 : ¬ GB ≤ n := by unfold GB; omega
    have h2 : ¬ MB ≤ n := by unfold MB; omega
    have h3 : ¬ KB ≤ n := by unfold KB; omega
    simp only [h1, h2, h3, if_false]
  · intro h h2
    unfold format_size
    have g1 : ¬ GB ≤ n := by unfold GB; omega
    have g2 : ¬ MB ≤ n := by unfold MB; omega
    have g3 : KB ≤ n := by unfold KB; omega
    simp only [g1, g2, g3, if_false, if_true]
  · intro h h2
    unfold format_size
    have g1 : ¬ GB ≤ n := by unfold GB; omega
    have g2 : MB ≤ n := by unfold MB; omega
    simp only [g1, g2, if_false, if_true]
  · intro h
    unfold format_size
    have g1 : GB ≤ n := by unfold GB; omega
    simp only [g1, if_true]

/-- Witness for `format_size_thresholds` at 500 bytes and at the KB
threshold. -/
theorem format_size_thresholds_witness :
    format_size 500 = .bytes 500 ∧ format_size 1024 = .kb 10 :=
  ⟨(format_size_thresholds 500).1 (by decide),
   (format_size_thresholds 1024).2.2.2.2.1⟩

/-! ## Copy loop

Source (`main`, part_000 lines 458-514 / wdd.c lines 373-429):

    for (;;) {
        if (options.count >= 0 && s.num_blocks_copied >= options.count) break;
        if (show_progress) { ... }            // reads counters, never writes them
        result = ReadFile(s.in_file, s.buffer, s.buffer_size,
                          &num_block_bytes_in, NULL);
        if (num_block_bytes_in == 0
            || (!result && GetLastError() == ERROR_SECTOR_NOT_FOUND)) break;
        if (!result) exit_on_error(&s, GetLastError(), "Error reading from file");
        s.num_bytes_in += num_block_bytes_in;
        result = WriteFile(s.out_file, s.buffer, num_block_bytes_in,
                           &num_block_bytes_out, NULL);
        if (!result) exit_on_error(&s, GetLastError(), "Error writing to file");
        s.num_bytes_out += num_block_bytes_out;
        s.num_blocks_copied++;
    }

Notes on the transcription:
- `options.count` has type `size_t`, so `options.count >= 0` is always true
  (an unspecified count is `(size_t)-1 = 2^64 - 1`); the guard reduces to
  `num_blocks_copied >= count` with `count : Nat`.
- Each iteration consumes one `LoopEvent`: the outcome the environment gives
  the `ReadFile` call (success flag, `*&num_block_bytes_in`, `GetLastError`)
  and, should the iteration reach it, the `WriteFile` call.
- The `show_progress` block (part_000 lines 468-484) samples the clock and
  redraws the status line; it reads `s.num_bytes_out` but never writes any
  transfer counter, so it cannot affect the properties below; its state
  updates are modelled separately by `progressUpdate`. -/

/-- Transfer counters of `struct program_state` that the copy loop
mutates. -/
structure LoopState where
  num_bytes_in : Nat
  num_bytes_out : Nat
  num_blocks_copied : Nat
deriving DecidableEq, Repr

/-- Outcome the environment produces for one `ReadFile` call: the `BOOL`
return value, the value stored through `&num_block_bytes_in`, and what
`GetLastError()` would return afterwards. -/
structure ReadOutcome where
  success : Bool
  bytesRead : Nat
  lastError : Nat
deriving DecidableEq, Repr

/-- Outcome the environment produces for one `WriteFile` call. -/
structure WriteOutcome where
  success : Bool
  bytesWritten : Nat
  lastError : Nat
deriving DecidableEq, Repr

/-- One loop iteration's environment responses: the read outcome and the
write outcome (the latter consulted only if the iteration reaches
`WriteFile`). -/
abbrev LoopEvent := ReadOutcome × WriteOutcome

/-- How the copy loop ends: a `break` (limit reached, zero-length read, or
sector-not-found read), an `exit_on_error` call from a failed read or write,
or the supplied event list ran out while the loop wanted another
iteration. -/
inductive LoopResult where
  | normal (st : LoopState)
  | fatalRead (st : LoopState) (code : Nat)
  | fatalWrite (st : LoopState) (code : Nat)
  | outOfEvents (st : LoopState)
deriving DecidableEq, Repr

/-- Full observation of one loop execution: the result, how many `ReadFile`
and `WriteFile` calls were issued, and every counter state observed (the
state at each loop top plus the state between the read accumulation and the
write). -/
structure LoopRun where
  result : LoopResult
  readCalls : Nat
  writeCalls : Nat
  states : List LoopState
deriving DecidableEq, Repr

/-- The copy loop, transcribed from the source above, consuming one event
per iteration. -/
def runLoopAux (count : Nat) (st : LoopState) : List LoopEvent → LoopRun
  | [] =>
    if count ≤ st.num_blocks_copied then ⟨.normal st, 0, 0, [st]⟩
    else ⟨.outOfEvents st, 0, 0, [st]⟩
  | (rd, wr) :: rest =>
    if count ≤ st.num_blocks_copied then ⟨.normal st, 0, 0, [st]⟩
    else if rd.bytesRead = 0 ∨
        (rd.success = false ∧ rd.lastError = ERROR_SECTOR_NOT_FOUND) then
      ⟨.normal st, 1, 0, [st]⟩
    else if rd.success = false then ⟨.fatalRead st rd.lastError, 1, 0, [st]⟩
    else
      let st1 : LoopState :=
        { st with num_bytes_in := st.num_bytes_in + rd.bytesRead }
      if wr.success = false then ⟨.fatalWrite st1 wr.lastError, 1, 1, [st, st1]⟩
      else
        let st2 : LoopState :=
          { st1 with
            num_bytes_out := st1.num_bytes_out + wr.bytesWritten
            num_blocks_copied := st1.num_blocks_copied + 1 }
        let r := runLoopAux count st2 rest
        ⟨r.result, r.readCalls + 1, r.writeCalls + 1, st :: st1 :: r.states⟩

/-- Result of the copy loop run from a given state on a given event list. -/
def runLoop (count : Nat) (st : LoopState) (evs : List LoopEvent) : LoopResult :=
  (runLoopAux count st evs).result

/-- Progress-display bookkeeping of `main` (part_000 lines 468-484): the
locals `last_time` and `last_bytes_copied` that persist across
iterations. -/
structure ProgressState where
  last_time : Nat
  last_bytes_copied : Nat
deriving DecidableEq, Repr

/-- One pass of the `show_progress` block at the top of a loop iteration:
on the first sample the baseline is recorded; afterwards, once
`UPDATE_INTERVAL` microseconds have elapsed, the status line is redrawn and
the baselines reset.  The transfer counters are read, never written. -/
def progressUpdate (show_progress : Bool) (current_time num_bytes_out : Nat)
    (ps : ProgressState) : ProgressState :=
  if show_progress = false then ps
  else if ps.last_time = 0 then { ps with last_time := current_time }
  else if UPDATE_INTERVAL ≤ current_time - ps.last_time then
    { last_time := current_time, last_bytes_copied := num_bytes_out }
  else ps

/-! ### Helper lemmas about the loop -/

/-- Once the block-count limit is reached the loop stops immediately,
consuming nothing, whatever events remain. -/
theorem runLoopAux_stop (count : Nat) (st : LoopState)
    (evs : List LoopEvent) (h : count ≤ st.num_blocks_copied) :
    runLoopAux count st evs = ⟨.normal st, 0, 0, [st]⟩ := by
  cases evs with
  | nil => simp only [runLoopAux, if_pos h]
  | cons ev rest =>
    obtain ⟨rd, wr⟩ := ev
    simp only [runLoopAux, if_pos h]

/-- Splitting a loop run at a list append: the run on the concatenation is
the run on the first part, continued on the second when the first part ran
out of events. -/
theorem runLoop_append (count : Nat) (st : LoopState)
    (evs rest : List LoopEvent) :
    runLoop count st (evs ++ rest) =
      match runLoop count st evs with
      | .outOfEvents stm => runLoop count stm rest
      | r => r := by
  induction evs generalizing st with
  | nil =>
    by_cases h : count ≤ st.num_blocks_copied
    · rw [List.nil_append]
      simp only [runLoop]
      rw [runLoopAux_stop count st rest h]
      simp only [runLoopAux, if_pos h]
    · simp only [runLoop, List.nil_append, runLoopAux, if_neg h]
  | cons ev evs ih =>
    obtain ⟨rd, wr⟩ := ev
    by_cases h : count ≤ st.num_blocks_copied
    · simp only [runLoop, List.cons_append, runLoopAux, if_pos h]
    · by_cases hbrk : rd.bytesRead = 0 ∨
          (rd.success = false ∧ rd.lastError = ERROR_SECTOR_NOT_FOUND)
      · simp only [runLoop, List.cons_append, runLoopAux, if_neg h, if_pos hbrk]
      · by_cases hrs : rd.success = false
        · simp only [runLoop, List.cons_append, runLoopAux, if_neg h,
            if_neg hbrk, if_pos hrs]
        · by_cases hws : wr.success = false
          · simp only [runLoop, List.cons_append, runLoopAux, if_neg h,
              if_neg hbrk, if_neg hrs, if_pos hws]
          · simp only [runLoop, List.cons_append, runLoopAux, if_neg h,
              if_neg hbrk, if_neg hrs, if_neg hws]
            exact ih _

/-! ## Claim C9 -/

/-- Claim C9: an iteration whose `ReadFile` returns zero bytes with no error
terminates the loop normally: the result is the unchanged entry state (both
cumulative counters and the block count untouched), one read call and zero
write calls are issued, and neither the pending write outcome nor any later
event is consulted. -/
theorem zero_read_stops_loop (count : Nat) (st : LoopState)
    (rd : ReadOutcome) (wr : WriteOutcome) (rest : List LoopEvent)
    (hcnt : st.num_blocks_copied < count)
    (hz : rd.bytesRead = 0) (hok : rd.success = true) :
    runLoopAux count st ((rd, wr) :: rest) = ⟨.normal st, 1, 0, [st]⟩ := by
  have h : ¬ count ≤ st.num_blocks_copied := Nat.not_le.mpr hcnt
  simp only [runLoopAux, if_neg h, if_pos (Or.inl hz)]

/-- Witness for `zero_read_stops_loop`: a zero-byte successful read on the
first iteration with limit 5. -/
theorem zero_read_stops_loop_witness :
    runLoopAux 5 ⟨0, 0, 0⟩ ((⟨true, 0, 0⟩, ⟨true, 0, 0⟩) :: []) =
      ⟨.normal ⟨0, 0, 0⟩, 1, 0, [⟨0, 0, 0⟩]⟩ :=
  zero_read_stops_loop 5 ⟨0, 0, 0⟩ ⟨true, 0, 0⟩ ⟨true, 0, 0⟩ []
    (by decide) rfl rfl

/-! ## Claim C10 -/

/-- Claim C10: a successful write that transfers fewer bytes than were just
read does not retry or abort: the loop simply continues on the remaining
events from the state whose bytes-read counter grew by the bytes read, whose
bytes-written counter grew by only the bytes actually written, and whose
block counter grew by one; exactly one write call is issued for the
iteration, so the shortfall is never rewritten. -/
theorem short_write_continues (count : Nat) (st : LoopState)
    (rd : ReadOutcome) (wr : WriteOutcome) (rest : List LoopEvent)
    (hcnt : st.num_blocks_copied < count)
    (hok : rd.success = true) (hr : rd.bytesRead ≠ 0)
    (hwok : wr.success = true) (hshort : wr.bytesWritten < rd.bytesRead) :
    runLoop count st ((rd, wr) :: rest) =
      runLoop count
        ⟨st.num_bytes_in + rd.bytesRead, st.num_bytes_out + wr.bytesWritten,
          st.num_blocks_copied + 1⟩ rest ∧
    (runLoopAux count st ((rd, wr) :: rest)).writeCalls =
      (runLoopAux count
        ⟨st.num_bytes_in + rd.bytesRead, st.num_bytes_out + wr.bytesWritten,
          st.num_blocks_copied + 1⟩ rest).writeCalls + 1 := by
  have h : ¬ count ≤ st.num_blocks_copied := Nat.not_le.mpr hcnt
  have hbrk : ¬ (rd.bytesRead = 0 ∨
      (rd.success = false ∧ rd.lastError = ERROR_SECTOR_NOT_FOUND)) := by
    rintro (h0 | ⟨hf, _⟩)
    · exact hr h0
    · rw [hok] at hf
      exact Bool.true_eq_false.mp hf
  have hrs : ¬ rd.success = false := by
    rw [hok]
    exact fun hf => Bool.true_eq_false.mp hf
  have hws : ¬ wr.success = false := by
    rw [hwok]
    exact fun hf => Bool.true_eq_false.mp hf
  constructor
  · simp only [runLoop, runLoopAux, if_neg h, if_neg hbrk, if_neg hrs,
      if_neg hws]
  · simp only [runLoopAux, if_neg h, if_neg hbrk, if_neg hrs, if_neg hws]

/-- Witness for `short_write_continues`: reading 100 bytes, writing 40, on
the first iteration with limit 5 and no further events. -/
theorem short_write_continues_witness :
    runLoop 5 ⟨0, 0, 0⟩ ((⟨true, 100, 0⟩, ⟨true, 40, 0⟩) :: []) =
      runLoop 5 ⟨100, 40, 1⟩ [] ∧
    (runLoopAux 5 ⟨0, 0, 0⟩ ((⟨true, 100, 0⟩, ⟨true, 40, 0⟩) :: [])).writeCalls =
      (runLoopAux 5 ⟨100, 40, 1⟩ []).writeCalls + 1 :=
  short_write_continues 5 ⟨0, 0, 0⟩ ⟨true, 100, 0⟩ ⟨true, 40, 0⟩ []
    (by decide) rfl (by decide) rfl (by decide)

/-! ## Claim C4 -/

/-- Every state the loop passes through keeps cumulative bytes written at or
below cumulative bytes read, provided each write transfers at most the bytes
just read (the `WriteFile` contract: at most `nNumberOfBytesToWrite` bytes
are written). -/
theorem loop_states_out_le_in (count : Nat) :
    ∀ evs : List LoopEvent,
      (∀ ev ∈ evs, (ev.2).bytesWritten ≤ (ev.1).bytesRead) →
      ∀ st : LoopState, st.num_bytes_out ≤ st.num_bytes_in →
        ∀ s ∈ (runLoopAux count st evs).states,
          s.num_bytes_out ≤ s.num_bytes_in := by
  intro evs
  induction evs with
  | nil =>
    intro _ st hst s hs
    by_cases h : count ≤ st.num_blocks_copied
    · simp only [runLoopAux, if_pos h, List.mem_singleton] at hs
      exact hs ▸ hst
    · simp only [runLoopAux, if_neg h, List.mem_singleton] at hs
      exact hs ▸ hst
  | cons ev rest ih =>
    obtain ⟨rd, wr⟩ := ev
    intro hw st hst s hs
    have hw1 : wr.bytesWritten ≤ rd.bytesRead :=
      hw (rd, wr) (List.mem_cons_self _ _)
    have hwr : ∀ e ∈ rest, (e.2).bytesWritten ≤ (e.1).bytesRead :=
      fun e he => hw e (List.mem_cons_of_mem _ he)
    by_cases h : count ≤ st.num_blocks_copied
    · simp only [runLoopAux, if_pos h, List.mem_singleton] at hs
      exact hs ▸ hst
    · by_cases hbrk : rd.bytesRead = 0 ∨
          (rd.success = false ∧ rd.lastError = ERROR_SECTOR_NOT_FOUND)
      · simp only [runLoopAux, if_neg h, if_pos hbrk, List.mem_singleton] at hs
        exact hs ▸ hst
      · by_cases hrs : rd.success = false
        · simp only [runLoopAux, if_neg h, if_neg hbrk, if_pos hrs,
            List.mem_singleton] at hs
          exact hs ▸ hst
        · by_cases hws : wr.success = false
          · simp only [runLoopAux, if_neg h, if_neg hbrk, if_neg hrs,
              if_pos hws, List.mem_cons, List.mem_singleton,
              List.not_mem_nil, or_false] at hs
            rcases hs with hs | hs
            · exact hs ▸ hst
            · subst hs
              exact Nat.le_trans hst (Nat.le_add_right _ _)
          · simp only [runLoopAux, if_neg h, if_neg hbrk, if_neg hrs,
              if_neg hws, List.mem_cons] at hs
            rcases hs with hs | hs | hs
            · exact hs ▸ hst
            · subst hs
              exact Nat.le_trans hst (Nat.le_add_right _ _)
            · exact ih hwr _ (Nat.add_le_add hst hw1) s hs

/-- When every successful write transfers exactly the bytes just read and
every read fits the transfer buffer, the loop keeps cumulative bytes read
within one buffer of cumulative bytes written at every observed state. -/
theorem loop_states_lag (count B : Nat) :
    ∀ evs : List LoopEvent,
      (∀ ev ∈ evs, (ev.2).success = true →
        (ev.2).bytesWritten = (ev.1).bytesRead) →
      (∀ ev ∈ evs, (ev.1).bytesRead ≤ B) →
      ∀ st : LoopState, st.num_bytes_in = st.num_bytes_out →
        ∀ s ∈ (runLoopAux count st evs).states,
          s.num_bytes_in ≤ s.num_bytes_out + B := by
  intro evs
  induction evs with
  | nil =>
    intro _ _ st hst s hs
    by_cases h : count ≤ st.num_blocks_copied
    · simp only [runLoopAux, if_pos h, List.mem_singleton] at hs
      subst hs
      omega
    · simp only [runLoopAux, if_neg h, List.mem_singleton] at hs
      subst hs
      omega
  | cons ev rest ih =>
    obtain ⟨rd, wr⟩ := ev
    intro hfull hbuf st hst s hs
    have hb1 : rd.bytesRead ≤ B := hbuf (rd, wr) (List.mem_cons_self _ _)
    have hfr : ∀ e ∈ rest, (e.2).success = true →
        (e.2).bytesWritten = (e.1).bytesRead :=
      fun e he => hfull e (List.mem_cons_of_mem _ he)
    have hbr : ∀ e ∈ rest, (e.1).bytesRead ≤ B :=
      fun e he => hbuf e (List.mem_cons_of_mem _ he)
    by_cases h : count ≤ st.num_blocks_copied
    · simp only [runLoopAux, if_pos h, List.mem_singleton] at hs
      subst hs
      omega
    · by_cases hbrk : rd.bytesRead = 0 ∨
          (rd.success = false ∧ rd.lastError = ERROR_SECTOR_NOT_FOUND)
      · simp only [runLoopAux, if_neg h, if_pos hbrk, List.mem_singleton] at hs
        subst hs
        omega
      · by_cases hrs : rd.success = false
        · simp only [runLoopAux, if_neg h, if_neg hbrk, if_pos hrs,
            List.mem_singleton] at hs
          subst hs
          omega
        · by_cases hws : wr.success = false
          · simp only [runLoopAux, if_neg h, if_neg hbrk, if_neg hrs,
              if_pos hws, List.mem_cons, List.mem_singleton,
              List.not_mem_nil, or_false] at hs
            rcases hs with hs | hs
            · subst hs
              omega
            · subst hs
              show st.num_bytes_in + rd.bytesRead ≤ st.num_bytes_out + B
              omega
          · have hwt : wr.success = true := by
              cases hwsv : wr.success
              · exact absurd hwsv hws
              · rfl
            have heq : wr.bytesWritten = rd.bytesRead :=
              hfull (rd, wr) (List.mem_cons_self _ _) hwt
            simp only [runLoopAux, if_neg h, if_neg hbrk, if_neg hrs,
              if_neg hws, List.mem_cons] at hs
            rcases hs with hs | hs | hs
            · subst hs
              omega
            · subst hs
              show st.num_bytes_in + rd.bytesRead ≤ st.num_bytes_out + B
              omega
            · refine ih hfr hbr _ ?_ s hs
              show st.num_bytes_in + rd.bytesRead =
                st.num_bytes_out + wr.bytesWritten
              omega

/-- Claim C4, counterexample.  The claim bounds the read/write gap by the
one block currently in flight.  On a trace of two successful 4096-byte reads
each answered by a successful zero-byte write — every write transfers no
more than the bytes just read, every read fits the 4096-byte buffer — the
loop reaches an observation point (after the second read accumulate) where
bytes read exceed bytes written by 8192, more than the one 4096-byte block
then in flight. -/
theorem write_lag_exceeds_block :
    (∀ ev ∈ ([(⟨true, 4096, 0⟩, ⟨true, 0, 0⟩),
        (⟨true, 4096, 0⟩, ⟨true, 0, 0⟩)] : List LoopEvent),
      (ev.2).bytesWritten ≤ (ev.1).bytesRead ∧ (ev.1).bytesRead ≤ 4096) ∧
    ∃ s ∈ (runLoopAux 10 ⟨0, 0, 0⟩
        [(⟨true, 4096, 0⟩, ⟨true, 0, 0⟩),
         (⟨true, 4096, 0⟩, ⟨true, 0, 0⟩)]).states,
      s.num_bytes_out + 4096 < s.num_bytes_in := by decide

/-- Claim C4, amended: at every observation point during the copy loop,
cumulative bytes written never exceed cumulative bytes read (each write
transfers at most the bytes just read, per the `WriteFile` contract); the
gap is bounded by the one in-flight block only under the extra premise that
every successful write is complete — short successful writes accumulate an
unbounded lag, as the counterexample shows. -/
theorem bytes_out_le_bytes_in (count B : Nat) (evs : List LoopEvent)
    (hw : ∀ ev ∈ evs, (ev.2).bytesWritten ≤ (ev.1).bytesRead) :
    (∀ s ∈ (runLoopAux count ⟨0, 0, 0⟩ evs).states,
      s.num_bytes_out ≤ s.num_bytes_in) ∧
    ((∀ ev ∈ evs, (ev.2).success = true →
        (ev.2).bytesWritten = (ev.1).bytesRead) →
      (∀ ev ∈ evs, (ev.1).bytesRead ≤ B) →
      ∀ s ∈ (runLoopAux count ⟨0, 0, 0⟩ evs).states,
        s.num_bytes_in ≤ s.num_bytes_out + B) :=
  ⟨loop_states_out_le_in count evs hw ⟨0, 0, 0⟩ (Nat.le_refl 0),
   fun hfull hbuf => loop_states_lag count B evs hfull hbuf ⟨0, 0, 0⟩ rfl⟩

/-- Witness for `bytes_out_le_bytes_in`: one full 100-byte read answered by
a full 100-byte write, bound 100, limit 5. -/
theorem bytes_out_le_bytes_in_witness :
    (∀ s ∈ (runLoopAux 5 ⟨0, 0, 0⟩
        [((⟨true, 100, 0⟩, ⟨true, 100, 0⟩) : LoopEvent)]).states,
      s.num_bytes_out ≤ s.num_bytes_in) ∧
    (∀ s ∈ (runLoopAux 5 ⟨0, 0, 0⟩
        [((⟨true, 100, 0⟩, ⟨true, 100, 0⟩) : LoopEvent)]).states,
      s.num_bytes_in ≤ s.num_bytes_out + 100) :=
  ⟨(bytes_out_le_bytes_in 5 100 _ (by decide)).1,
   (bytes_out_le_bytes_in 5 100 _ (by decide)).2 (by decide) (by decide)⟩

/-! ## Claim C5 -/

/-- The loop issues at most `count - blocks-already-copied` read calls. -/
theorem loop_readCalls_le (count : Nat) :
    ∀ evs : List LoopEvent, ∀ st : LoopState,
      (runLoopAux count st evs).readCalls ≤
        count - st.num_blocks_copied := by
  intro evs
  induction evs with
  | nil =>
    intro st
    by_cases h : count ≤ st.num_blocks_copied <;>
      simp only [runLoopAux, if_pos, if_neg, h, if_true, if_false] <;>
      exact Nat.zero_le _
  | cons ev rest ih =>
    obtain ⟨rd, wr⟩ := ev
    intro st
    by_cases h : count ≤ st.num_blocks_copied
    · simp only [runLoopAux, if_pos h]
      exact Nat.zero_le _
    · have hlt : st.num_blocks_copied < count := Nat.not_le.mp h
      by_cases hbrk : rd.bytesRead = 0 ∨
          (rd.success = false ∧ rd.lastError = ERROR_SECTOR_NOT_FOUND)
      · simp only [runLoopAux, if_neg h, if_pos hbrk]
        omega
      · by_cases hrs : rd.success = false
        · simp only [runLoopAux, if_neg h, if_neg hbrk, if_pos hrs]
          omega
        · by_cases hws : wr.success = false
          · simp only [runLoopAux, if_neg h, if_neg hbrk, if_neg hrs,
              if_pos hws]
            omega
          · simp only [runLoopAux, if_neg h, if_neg hbrk, if_neg hrs,
              if_neg hws]
            have := ih ⟨st.num_bytes_in + rd.bytesRead,
              st.num_bytes_out + wr.bytesWritten, st.num_blocks_copied + 1⟩
            simp only [] at this
            omega

/-- The loop never issues more write calls than read calls. -/
theorem loop_writeCalls_le (count : Nat) :
    ∀ evs : List LoopEvent, ∀ st : LoopState,
      (runLoopAux count st evs).writeCalls ≤
        (runLoopAux count st evs).readCalls := by
  intro evs
  induction evs with
  | nil =>
    intro st
    by_cases h : count ≤ st.num_blocks_copied <;>
      simp only [runLoopAux, h, if_true, if_false] <;> exact Nat.le_refl _
  | cons ev rest ih =>
    obtain ⟨rd, wr⟩ := ev
    intro st
    by_cases h : count ≤ st.num_blocks_copied
    · simp only [runLoopAux, if_pos h]
      omega
    · by_cases hbrk : rd.bytesRead = 0 ∨
          (rd.success = false ∧ rd.lastError = ERROR_SECTOR_NOT_FOUND)
      · simp only [runLoopAux, if_neg h, if_pos hbrk]
        omega
      · by_cases hrs : rd.success = false
        · simp only [runLoopAux, if_neg h, if_neg hbrk, if_pos hrs]
          omega
        · by_cases hws : wr.success = false
          · simp only [runLoopAux, if_neg h, if_neg hbrk, if_neg hrs,
              if_pos hws]
            omega
          · simp only [runLoopAux, if_neg h, if_neg hbrk, if_neg hrs,
              if_neg hws]
            have := ih ⟨st.num_bytes_in + rd.bytesRead,
              st.num_bytes_out + wr.bytesWritten, st.num_blocks_copied + 1⟩
            omega

/-- When every event is a successful, non-empty read followed by a
successful write, and at least `count - blocks-copied` events remain, the
loop terminates normally with exactly `count` blocks copied. -/
theorem loop_reaches_count (count : Nat) :
    ∀ evs : List LoopEvent,
      (∀ ev ∈ evs, (ev.1).success = true ∧ (ev.1).bytesRead ≠ 0 ∧
        (ev.2).success = true) →
      ∀ st : LoopState, st.num_blocks_copied ≤ count →
        count - st.num_blocks_copied ≤ evs.length →
        ∃ stf, runLoop count st evs = .normal stf ∧
          stf.num_blocks_copied = count := by
  intro evs
  induction evs with
  | nil =>
    intro _ st h1 h2
    simp only [List.length_nil] at h2
    have heq : st.num_blocks_copied = count := by omega
    exact ⟨st, by simp only [runLoop, runLoopAux, if_pos (Nat.le_of_eq heq.symm)],
      heq⟩
  | cons ev rest ih =>
    obtain ⟨rd, wr⟩ := ev
    intro hgood st h1 h2
    obtain ⟨hr1, hr2, hw1⟩ := hgood (rd, wr) (List.mem_cons_self _ _)
    have hgr : ∀ e ∈ rest, (e.1).success = true ∧ (e.1).bytesRead ≠ 0 ∧
        (e.2).success = true :=
      fun e he => hgood e (List.mem_cons_of_mem _ he)
    by_cases h : count ≤ st.num_blocks_copied
    · exact ⟨st, by simp only [runLoop, runLoopAux, if_pos h], by omega⟩
    · have hbrk : ¬ (rd.bytesRead = 0 ∨
          (rd.success = false ∧ rd.lastError = ERROR_SECTOR_NOT_FOUND)) := by
        rintro (h0 | ⟨hf, _⟩)
        · exact hr2 h0
        · rw [hr1] at hf
          exact Bool.true_eq_false.mp hf
      have hrs : ¬ rd.success = false := by
        rw [hr1]
        exact fun hf => Bool.true_eq_false.mp hf
      have hws : ¬ wr.success = false := by
        rw [hw1]
        exact fun hf => Bool.true_eq_false.mp hf
      simp only [runLoop, runLoopAux, if_neg h, if_neg hbrk, if_neg hrs,
        if_neg hws]
      have hlen : count - (st.num_blocks_copied + 1) ≤ rest.length := by
        simp only [List.length_cons] at h2
        omega
      exact ih hgr ⟨st.num_bytes_in + rd.bytesRead,
        st.num_bytes_out + wr.bytesWritten, st.num_blocks_copied + 1⟩
        (by simp only []; omega) (by simp only []; exact hlen)

/-- Claim C5: with block-count limit `count`, the copy loop issues at most
`count` read calls and no more write calls than read calls, whatever the
events; and when the source keeps supplying data (every event a successful
non-empty read and successful write) with at least `count` events available,
the loop stops normally with exactly `count` blocks copied. -/
theorem count_limits_iterations (count : Nat) (evs : List LoopEvent) :
    (runLoopAux count ⟨0, 0, 0⟩ evs).readCalls ≤ count ∧
    (runLoopAux count ⟨0, 0, 0⟩ evs).writeCalls ≤
      (runLoopAux count ⟨0, 0, 0⟩ evs).readCalls ∧
    ((∀ ev ∈ evs, (ev.1).success = true ∧ (ev.1).bytesRead ≠ 0 ∧
        (ev.2).success = true) →
      count ≤ evs.length →
      ∃ stf, runLoop count ⟨0, 0, 0⟩ evs = .normal stf ∧
        stf.num_blocks_copied = count) := by
  refine ⟨?_, loop_writeCalls_le count evs ⟨0, 0, 0⟩, ?_⟩
  · have := loop_readCalls_le count evs ⟨0, 0, 0⟩
    simpa using this
  · intro hgood hlen
    exact loop_reaches_count count evs hgood ⟨0, 0, 0⟩ (Nat.zero_le _)
      (by simpa using hlen)

/-- Witness for `count_limits_iterations`: limit 3 against a source
supplying four full 512-byte blocks. -/
theorem count_limits_iterations_witness :
    (runLoopAux 3 ⟨0, 0, 0⟩
      [((⟨true, 512, 0⟩, ⟨true, 512, 0⟩) : LoopEvent),
       (⟨true, 512, 0⟩, ⟨true, 512, 0⟩),
       (⟨true, 512, 0⟩, ⟨true, 512, 0⟩),
       (⟨true, 512, 0⟩, ⟨true, 512, 0⟩)]).readCalls ≤ 3 ∧
    (∃ stf, runLoop 3 ⟨0, 0, 0⟩
      [((⟨true, 512, 0⟩, ⟨true, 512, 0⟩) : LoopEvent),
       (⟨true, 512, 0⟩, ⟨true, 512, 0⟩),
       (⟨true, 512, 0⟩, ⟨true, 512, 0⟩),
       (⟨true, 512, 0⟩, ⟨true, 512, 0⟩)] = .normal stf ∧
      stf.num_blocks_copied = 3) :=
  ⟨(count_limits_iterations 3 _).1,
   (count_limits_iterations 3 _).2.2 (by decide) (by decide)⟩

/-! ## Whole-program model

`main` (part_000 lines 328-521 / wdd.c lines 252-436), from the point where
parsing has succeeded and the copy engine runs.  Each Windows API call site
consumes the outcome the environment would produce there, collected in an
`Oracle`.  The observable effects of a run (exit code, diagnostics, the
teardown performed by `cleanup`) are collected in a `ProgramResult`. -/

/-- The resolved options the copy engine consumes: `options.block_size`
(0 when `bs=` absent), `options.count` (a `size_t`, so the absent sentinel
`-1` is `2^64 - 1`, and the guard `options.count >= 0` in the loop is
tautologically true), and whether `status=progress` was given. -/
structure ProgramOptions where
  block_size : Nat
  count : Nat
  show_progress : Bool
deriving DecidableEq, Repr

/-- Environment responses for the API call sites of one run: whether
`CreateFileA` on the input succeeds, whether either `CreateFileA` attempt on
the output succeeds, whether `IOCTL_DISK_GET_DRIVE_GEOMETRY` succeeds (the
device classification) and the `BytesPerSector` it reports, whether
`FSCTL_DISMOUNT_VOLUME` and `FSCTL_LOCK_VOLUME` succeed, whether
`VirtualAlloc` succeeds, and the copy-loop events. -/
structure Oracle where
  openInOk : Bool
  openOutOk : Bool
  geomOk : Bool
  bytesPerSector : Nat
  dismountOk : Bool
  lockOk : Bool
  allocOk : Bool
  events : List LoopEvent
deriving DecidableEq, Repr

/-- Which exit the run took: one per `exit_on_error` call site plus normal
completion. -/
inductive ExitPath where
  | openInFailed
  | openOutFailed
  | dismountFailed
  | lockFailed
  | allocFailed
  | readFailed (code : Nat)
  | writeFailed (code : Nat)
  | completed
deriving DecidableEq, Repr

/-- Teardown effects of one `cleanup` call. -/
structure CleanupEffects where
  bufferFreed : Bool
  unlockAttempts : Nat
  inFileClosed : Bool
  outFileClosed : Bool
deriving DecidableEq, Repr

/-- Model of `cleanup` (part_000 lines 223-237): `VirtualFree` always runs;
`FSCTL_UNLOCK_VOLUME` is issued on the output handle if and only if
`s->out_file_is_device` is set; each `CloseHandle` runs if the handle is not
`INVALID_HANDLE_VALUE` (the validity flags). -/
def cleanup (out_file_is_device inValid outValid : Bool) : CleanupEffects :=
  { bufferFreed := true
    unlockAttempts := if out_file_is_device = true then 1 else 0
    inFileClosed := inValid
    outFileClosed := outValid }

/-- Observable outcome of one program run. -/
structure ProgramResult where
  path : ExitPath
  exitCode : Nat
  out_file_is_device : Bool
  started_copying : Bool
  buffer_size : Nat
  diagnosticWritten : Bool
  finalStatusRendered : Bool
  bufferFreed : Bool
  unlockAttempts : Nat
  inFileClosed : Bool
  outFileClosed : Bool
  finalState : LoopState
deriving DecidableEq, Repr

/-- Model of `exit_on_error` (part_000 lines 239-262): writes the diagnostic
with the system error description to stderr, renders the final status line
if and only if `s->started_copying`, calls `cleanup`, and exits with
`EXIT_FAILURE`. -/
def exit_on_error (out_file_is_device started inValid outValid : Bool)
    (buffer_size : Nat) (st : LoopState) (path : ExitPath) : ProgramResult :=
  let c := cleanup out_file_is_device inValid outValid
  { path := path
    exitCode := EXIT_FAILURE
    out_file_is_device := out_file_is_device
    started_copying := started
    buffer_size := buffer_size
    diagnosticWritten := true
    finalStatusRendered := started
    bufferFreed := c.bufferFreed
    unlockAttempts := c.unlockAttempts
    inFileClosed := c.inFileClosed
    outFileClosed := c.outFileClosed
    finalState := st }

/-- The tail of `main` after the loop breaks (part_000 lines 516-520):
`cleanup`, `clear_output`, `print_status`, `return EXIT_SUCCESS`. -/
def normalCompletion (out_file_is_device : Bool) (buffer_size : Nat)
    (st : LoopState) : ProgramResult :=
  let c := cleanup out_file_is_device true true
  { path := .completed
    exitCode := EXIT_SUCCESS
    out_file_is_device := out_file_is_device
    started_copying := true
    buffer_size := buffer_size
    diagnosticWritten := false
    finalStatusRendered := true
    bufferFreed := c.bufferFreed
    unlockAttempts := c.unlockAttempts
    inFileClosed := c.inFileClosed
    outFileClosed := c.outFileClosed
    finalState := st }

/-- Effective buffer size as `main` derives it (part_000 lines 404-443):
the device branch when the geometry query succeeded, else the regular-file
branch. -/
def effectiveBufferSize (opts : ProgramOptions) (o : Oracle) : Nat :=
  if o.geomOk = true then deriveBufferSize opts.block_size o.bytesPerSector
  else fileBufferSize opts.block_size

/-- The copy engine of `main`, transcribed from part_000 lines 348-521:
open input (exit on failure with no handle valid), open output (exit with
only the input handle valid), set `buffer_size = BUFFER_SIZE` and classify
the destination by the geometry query, then — for a device — dismount and
lock, exiting on failure with `out_file_is_device` already set; derive the
effective buffer size, allocate (exit on failure), set
`started_copying = TRUE`, run the copy loop, and finish on the error or
success path.  `none` when the supplied event list ran out before the loop
finished (an incompletely specified environment, impossible for the real
program). -/
def wddMain (opts : ProgramOptions) (o : Oracle) : Option ProgramResult :=
  if o.openInOk = false then
    some (exit_on_error false false false false 0 ⟨0, 0, 0⟩ .openInFailed)
  else if o.openOutOk = false then
    some (exit_on_error false false true false 0 ⟨0, 0, 0⟩ .openOutFailed)
  else if o.geomOk = true ∧ o.dismountOk = false then
    some (exit_on_error true false true true BUFFER_SIZE ⟨0, 0, 0⟩
      .dismountFailed)
  else if o.geomOk = true ∧ o.lockOk = false then
    some (exit_on_error true false true true BUFFER_SIZE ⟨0, 0, 0⟩
      .lockFailed)
  else if o.allocOk = false then
    some (exit_on_error o.geomOk false true true (effectiveBufferSize opts o)
      ⟨0, 0, 0⟩ .allocFailed)
  else
    match runLoop opts.count ⟨0, 0, 0⟩ o.events with
    | .outOfEvents _ => none
    | .fatalRead st code =>
      some (exit_on_error o.geomOk true true true (effectiveBufferSize opts o)
        st (.readFailed code))
    | .fatalWrite st code =>
      some (exit_on_error o.geomOk true true true (effectiveBufferSize opts o)
        st (.writeFailed code))
    | .normal st =>
      some (normalCompletion o.geomOk (effectiveBufferSize opts o) st)

/-- Invariants of every completed `wddMain` run: the buffer is freed once,
unlock is attempted exactly once if and only if the destination was
classified as a device (the geometry query succeeded after both opens), the
completed path exits 0 with the final status rendered and no diagnostic,
and every error path exits `EXIT_FAILURE` with a diagnostic, renders the
final status exactly when copying had started, and closes whichever handles
had been opened. -/
theorem wddMain_characterization (opts : ProgramOptions) (o : Oracle)
    (r : ProgramResult) (h : wddMain opts o = some r) :
    r.bufferFreed = true ∧
    r.unlockAttempts = (if r.out_file_is_device = true then 1 else 0) ∧
    (r.out_file_is_device = true ↔
      o.openInOk = true ∧ o.openOutOk = true ∧ o.geomOk = true) ∧
    (r.path = .completed →
      r.exitCode = EXIT_SUCCESS ∧ r.diagnosticWritten = false ∧
        r.finalStatusRendered = true) ∧
    (r.path ≠ .completed →
      r.exitCode = EXIT_FAILURE ∧ r.diagnosticWritten = true ∧
        r.finalStatusRendered = r.started_copying ∧
        (r.path ≠ .openInFailed → r.inFileClosed = true) ∧
        (r.path ≠ .openInFailed → r.path ≠ .openOutFailed →
          r.outFileClosed = true)) := by
  unfold wddMain at h
  by_cases hIn : o.openInOk = false
  · rw [if_pos hIn] at h
    obtain rfl := Option.some.inj h
    simp [exit_on_error, cleanup, hIn]
  · have hIn' : o.openInOk = true := by
      cases hv : o.openInOk
      · exact absurd hv hIn
      · rfl
    rw [if_neg hIn] at h
    by_cases hOut : o.openOutOk = false
    · rw [if_pos hOut] at h
      obtain rfl := Option.some.inj h
      simp [exit_on_error, cleanup, hOut]
    · have hOut' : o.openOutOk = true := by
        cases hv : o.openOutOk
        · exact absurd hv hOut
        · rfl
      rw [if_neg hOut] at h
      by_cases hDm : o.geomOk = true ∧ o.dismountOk = false
      · rw [if_pos hDm] at h
        obtain rfl := Option.some.inj h
        simp [exit_on_error, cleanup, hIn', hOut', hDm.1]
      · rw [if_neg hDm] at h
        by_cases hLk : o.geomOk = true ∧ o.lockOk = false
        · rw [if_pos hLk] at h
          obtain rfl := Option.some.inj h
          simp [exit_on_error, cleanup, hIn', hOut', hLk.1]
        · rw [if_neg hLk] at h
          by_cases hAl : o.allocOk = false
          · rw [if_pos hAl] at h
            obtain rfl := Option.some.inj h
            simp [exit_on_error, cleanup, hIn', hOut']
          · rw [if_neg hAl] at h
            cases hm : runLoop opts.count ⟨0, 0, 0⟩ o.events with
            | outOfEvents st =>
              rw [hm] at h
              exact absurd h (by simp)
            | fatalRead st code =>
              rw [hm] at h
              obtain rfl := Option.some.inj h
              simp [exit_on_error, cleanup, hIn', hOut']
            | fatalWrite st code =>
              rw [hm] at h
              obtain rfl := Option.some.inj h
              simp [exit_on_error, cleanup, hIn', hOut']
            | normal st =>
              rw [hm] at h
              obtain rfl := Option.some.inj h
              simp [normalCompletion, cleanup, hIn', hOut']

/-! ## Claim C2 -/

/-- Claim C2, counterexample.  The claim states the locked-device flag
becomes true only after the lock request succeeds, and that no unlock is
attempted when dismount failed before any lock was acquired.  In this run
the geometry query succeeds (so `out_file_is_device` is set), the dismount
request fails, and the lock request is never issued (it would fail too) —
yet teardown attempts one unlock, because `cleanup` keys the unlock on the
classification flag, which `main` sets before dismounting, not on lock
success. -/
theorem unlock_after_dismount_failure :
    wddMain ⟨0, 1, false⟩ ⟨true, true, true, 512, false, false, true, []⟩ =
      some { path := .dismountFailed
             exitCode := EXIT_FAILURE
             out_file_is_device := true
             started_copying := false
             buffer_size := BUFFER_SIZE
             diagnosticWritten := true
             finalStatusRendered := false
             bufferFreed := true
             unlockAttempts := 1
             inFileClosed := true
             outFileClosed := true
             finalState := ⟨0, 0, 0⟩ } := by decide

/-- Claim C2, amended: `out_file_is_device` is the device-classification
flag, set exactly when both opens and the geometry query succeed — before
dismount and lock; teardown attempts the unlock exactly once if and only if
that flag is set, including on sessions whose dismount or lock failed and
that therefore never acquired the lock. -/
theorem unlock_iff_device_flag (opts : ProgramOptions) (o : Oracle)
    (r : ProgramResult) (h : wddMain opts o = some r) :
    r.unlockAttempts = (if r.out_file_is_device = true then 1 else 0) ∧
    (r.out_file_is_device = true ↔
      o.openInOk = true ∧ o.openOutOk = true ∧ o.geomOk = true) :=
  ⟨(wddMain_characterization opts o r h).2.1,
   (wddMain_characterization opts o r h).2.2.1⟩

/-- Witness for `unlock_iff_device_flag`: an all-successful device run with
limit 0. -/
theorem unlock_iff_device_flag_witness :
    (normalCompletion true 512 ⟨0, 0, 0⟩).unlockAttempts =
      (if (normalCompletion true 512 ⟨0, 0, 0⟩).out_file_is_device = true
        then 1 else 0) ∧
    ((normalCompletion true 512 ⟨0, 0, 0⟩).out_file_is_device = true ↔
      true = true ∧ true = true ∧ true = true) :=
  unlock_iff_device_flag ⟨0, 0, false⟩
    ⟨true, true, true, 512, true, true, true, []⟩
    (normalCompletion true 512 ⟨0, 0, 0⟩) (by decide)

/-! ## Claim C6 -/

/-- Claim C6: when the session is set up successfully and, with the block
limit not yet reached, the loop meets a read that fails with
`ERROR_SECTOR_NOT_FOUND`, the loop breaks and the program takes the normal
completion path: final status rendered, teardown performed, exit code
`EXIT_SUCCESS` (0), with the counters as they stood at the bad-sector
read. -/
theorem bad_sector_exits_zero (opts : ProgramOptions) (o : Oracle)
    (pre post : List LoopEvent) (rd : ReadOutcome) (wr : WriteOutcome)
    (stm : LoopState)
    (hin : o.openInOk = true) (hout : o.openOutOk = true)
    (hdev : o.geomOk = true → o.dismountOk = true ∧ o.lockOk = true)
    (hal : o.allocOk = true)
    (hev : o.events = pre ++ (rd, wr) :: post)
    (hpre : runLoop opts.count ⟨0, 0, 0⟩ pre = .outOfEvents stm)
    (hcnt : stm.num_blocks_copied < opts.count)
    (hfail : rd.success = false)
    (hsec : rd.lastError = ERROR_SECTOR_NOT_FOUND) :
    wddMain opts o =
      some (normalCompletion o.geomOk (effectiveBufferSize opts o) stm) ∧
    (normalCompletion o.geomOk (effectiveBufferSize opts o) stm).exitCode =
      EXIT_SUCCESS ∧
    (normalCompletion o.geomOk (effectiveBufferSize opts o) stm).path =
      .completed ∧
    (normalCompletion o.geomOk (effectiveBufferSize opts o)
      stm).finalStatusRendered = true ∧
    (normalCompletion o.geomOk (effectiveBufferSize opts o)
      stm).bufferFreed = true ∧
    (normalCompletion o.geomOk (effectiveBufferSize opts o)
      stm).finalState = stm := by
  have hm : runLoop opts.count ⟨0, 0, 0⟩ o.events = .normal stm := by
    rw [hev, runLoop_append, hpre]
    show runLoop opts.count stm ((rd, wr) :: post) = .normal stm
    have hbrk : rd.bytesRead = 0 ∨
        (rd.success = false ∧ rd.lastError = ERROR_SECTOR_NOT_FOUND) :=
      Or.inr ⟨hfail, hsec⟩
    simp only [runLoop, runLoopAux, if_neg (Nat.not_le.mpr hcnt), if_pos hbrk]
  have c1 : ¬ o.openInOk = false := by
    rw [hin]
    exact fun hf => Bool.true_eq_false.mp hf
  have c2 : ¬ o.openOutOk = false := by
    rw [hout]
    exact fun hf => Bool.true_eq_false.mp hf
  have c3 : ¬ (o.geomOk = true ∧ o.dismountOk = false) := by
    rintro ⟨h1, h2⟩
    rw [(hdev h1).1] at h2
    exact Bool.true_eq_false.mp h2
  have c4 : ¬ (o.geomOk = true ∧ o.lockOk = false) := by
    rintro ⟨h1, h2⟩
    rw [(hdev h1).2] at h2
    exact Bool.true_eq_false.mp h2
  have c5 : ¬ o.allocOk = false := by
    rw [hal]
    exact fun hf => Bool.true_eq_false.mp hf
  refine ⟨?_, rfl, rfl, rfl, rfl, rfl⟩
  unfold wddMain
  rw [if_neg c1, if_neg c2, if_neg c3, if_neg c4, if_neg c5, hm]

/-- Witness for `bad_sector_exits_zero`: a regular-file destination whose
very first read fails with `ERROR_SECTOR_NOT_FOUND`. -/
theorem bad_sector_exits_zero_witness :
    wddMain ⟨0, 5, false⟩ ⟨true, true, false, 0, true, true, true,
        [(⟨false, 0, 27⟩, ⟨true, 0, 0⟩)]⟩ =
      some (normalCompletion false 4096 ⟨0, 0, 0⟩) ∧
    (normalCompletion false 4096 ⟨0, 0, 0⟩).exitCode = EXIT_SUCCESS :=
  ⟨(bad_sector_exits_zero ⟨0, 5, false⟩
      ⟨true, true, false, 0, true, true, true,
        [(⟨false, 0, 27⟩, ⟨true, 0, 0⟩)]⟩
      [] [] ⟨false, 0, 27⟩ ⟨true, 0, 0⟩ ⟨0, 0, 0⟩
      rfl rfl (fun hg => nomatch hg) rfl rfl rfl (by decide) rfl rfl).1,
   (bad_sector_exits_zero ⟨0, 5, false⟩
      ⟨true, true, false, 0, true, true, true,
        [(⟨false, 0, 27⟩, ⟨true, 0, 0⟩)]⟩
      [] [] ⟨false, 0, 27⟩ ⟨true, 0, 0⟩ ⟨0, 0, 0⟩
      rfl rfl (fun hg => nomatch hg) rfl rfl rfl (by decide) rfl rfl).2.1⟩

/-! ## Claim C7 -/

/-- Claim C7: every run that ends on an error path writes the diagnostic,
renders the final status line if and only if copying had started, performs
teardown (buffer release, unlock exactly when the destination was flagged a
device, closing whichever handles had been opened), and exits with
`EXIT_FAILURE`, which is non-zero. -/
theorem fatal_error_cleanup_exit (opts : ProgramOptions) (o : Oracle)
    (r : ProgramResult) (h : wddMain opts o = some r)
    (hp : r.path ≠ .completed) :
    r.exitCode = EXIT_FAILURE ∧ r.exitCode ≠ 0 ∧
    r.diagnosticWritten = true ∧
    r.finalStatusRendered = r.started_copying ∧
    r.bufferFreed = true ∧
    r.unlockAttempts = (if r.out_file_is_device = true then 1 else 0) ∧
    (r.path ≠ .openInFailed → r.inFileClosed = true) ∧
    (r.path ≠ .openInFailed → r.path ≠ .openOutFailed →
      r.outFileClosed = true) := by
  obtain ⟨hbuf, hunlock, _, _, herr⟩ := wddMain_characterization opts o r h
  obtain ⟨he1, he2, he3, he4, he5⟩ := herr hp
  exact ⟨he1, by rw [he1]; exact Nat.one_ne_zero, he2, he3, hbuf, hunlock,
    he4, he5⟩

/-- Witness for `fatal_error_cleanup_exit`: a run whose input open fails. -/
theorem fatal_error_cleanup_exit_witness :
    (exit_on_error false false false false 0 ⟨0, 0, 0⟩
      .openInFailed).exitCode = EXIT_FAILURE ∧
    (exit_on_error false false false false 0 ⟨0, 0, 0⟩
      .openInFailed).exitCode ≠ 0 ∧
    (exit_on_error false false false false 0 ⟨0, 0, 0⟩
      .openInFailed).diagnosticWritten = true ∧
    (exit_on_error false false false false 0 ⟨0, 0, 0⟩
      .openInFailed).finalStatusRendered =
      (exit_on_error false false false false 0 ⟨0, 0, 0⟩
        .openInFailed).started_copying ∧
    (exit_on_error false false false false 0 ⟨0, 0, 0⟩
      .openInFailed).bufferFreed = true ∧
    (exit_on_error false false false false 0 ⟨0, 0, 0⟩
      .openInFailed).unlockAttempts =
      (if (exit_on_error false false false false 0 ⟨0, 0, 0⟩
        .openInFailed).out_file_is_device = true then 1 else 0) ∧
    ((exit_on_error false false false false 0 ⟨0, 0, 0⟩
      .openInFailed).path ≠ .openInFailed →
      (exit_on_error false false false false 0 ⟨0, 0, 0⟩
        .openInFailed).inFileClosed = true) ∧
    ((exit_on_error false false false false 0 ⟨0, 0, 0⟩
      .openInFailed).path ≠ .openInFailed →
      (exit_on_error false false false false 0 ⟨0, 0, 0⟩
        .openInFailed).path ≠ .openOutFailed →
      (exit_on_error false false false false 0 ⟨0, 0, 0⟩
        .openInFailed).outFileClosed = true) :=
  fatal_error_cleanup_exit ⟨0, 1, false⟩
    ⟨false, true, false, 0, true, true, true, []⟩
    (exit_on_error false false false false 0 ⟨0, 0, 0⟩ .openInFailed)
    (by decide) (by decide)

end Wdd
